import Mathlib

/-!
Verification of the taste-accumulator and recommendation-confidence core of
the `refinda` repository, shallowly embedded in Lean 4.

The embedding follows two source files:
  * `supabase/functions/recommend-jeans/index.ts` (deterministic confidence
    scorer, grouped taste summary, vibe enforcement), and
  * `supabase/functions/taste-update/index.ts` (feedback weights, feature
    extraction, time-aware decay, profile loading).

JavaScript numbers are modelled as `ℚ` (all values arising here are exact
decimals; no NaN/Infinity is produced by the modelled paths, so the
`Number.isFinite` guards of the source collapse to the representable cases).
JavaScript objects used as string-keyed maps are modelled as association
lists in insertion order.  ASCII lowercasing models `toLowerCase` on the
ASCII vocabulary the source works with.
-/

/- ================= JS string primitives ================= -/

/-- Leading-whitespace removal on a character list. -/
def trimLeftChars : List Char → List Char
  | [] => []
  | c :: cs => if c.isWhitespace then trimLeftChars cs else c :: cs

/-- JS `s.toLowerCase()` on the ASCII texts involved, spelled out on
characters so that it evaluates inside the kernel. -/
def jsLower (s : String) : String := ⟨s.toList.map Char.toLower⟩

/-- JS `s.trim()`, spelled out on characters. -/
def jsTrim (s : String) : String :=
  ⟨trimLeftChars ((trimLeftChars s.toList.reverse).reverse)⟩

/-- Does the second character list start with the first one?
(model of a JS string `startsWith` test, spelled out on characters). -/
def charsStart : List Char → List Char → Bool
  | [], _ => true
  | _ :: _, [] => false
  | a :: as, b :: bs => a == b && charsStart as bs

/-- Does the haystack contain the needle as a contiguous run?
(model of JS `String.prototype.includes`). -/
def charsContain : List Char → List Char → Bool
  | n, [] => charsStart n []
  | n, h :: t => charsStart n (h :: t) || charsContain n t

/-- JS `hay.includes(ndl)`. -/
def strIncl (hay ndl : String) : Bool := charsContain ndl.toList hay.toList

/-- JS `s.startsWith(p)`. -/
def strStartsS (p s : String) : Bool := charsStart p.toList s.toList

/-- JS `s.replace(/^p/, "")` for a literal anchored pattern `p`. -/
def dropStart (p s : String) : String := if strStartsS p s then s.drop p.length else s

/-- JS `s.replace(/_/g, " ")`. -/
def underscoresToSpaces (s : String) : String :=
  ⟨s.toList.map (fun c => if c == '_' then ' ' else c)⟩

/-- First-occurrence deduplication, the order `Array.from(new Set(xs))`
produces in JS. -/
def dedupFirstAux (seen : List String) : List String → List String
  | [] => []
  | x :: xs => if seen.contains x then dedupFirstAux seen xs else x :: dedupFirstAux (x :: seen) xs

/- ================= recommend-jeans/index.ts : helpers ================= -/

/-- `clamp01` (recommend-jeans/index.ts:200).  On `ℚ` every value is finite,
so the `Number.isFinite` guard never fires. -/
def clamp01 (n : ℚ) : ℚ :=
  if n < 0 then 0 else if n > 1 then 1 else n

/-- `normS` (recommend-jeans/index.ts:207): lowercase and trim. -/
def normS (s : String) : String := jsTrim (jsLower s)

/-- `includesOne` (recommend-jeans/index.ts:211): some non-empty needle is
contained (case-insensitively) in the haystack. -/
def includesOne (hay : String) (needles : List String) : Bool :=
  needles.any (fun n => !(n == "") && strIncl (jsLower hay) (jsLower n))

/-- The recommendation shape `DenimRec` (recommend-jeans/index.ts:30),
restricted to the text fields the scorer reads. -/
structure DenimRec where
  brand : String
  model : String
  era_inspiration : String
  fit : String
  rise : String
  wash : String
  stretch_level : String
  why_each_pick : String
  anchor_reason : String
deriving DecidableEq

/-- `tokenizeRecText` (recommend-jeans/index.ts:218). -/
def tokenizeRecText (rec : DenimRec) : String :=
  jsTrim (String.intercalate " "
    ([rec.era_inspiration, rec.fit, rec.rise, rec.wash, rec.stretch_level,
      rec.brand, rec.model, rec.why_each_pick, rec.anchor_reason].map normS))

/-- `tasteKeyToNeedles` (recommend-jeans/index.ts:235). -/
def tasteKeyToNeedles (key : String) : List String :=
  let k := jsLower key
  let b1 := dropStart "era_" k
  let b2 := dropStart "fit_" b1
  let b3 := dropStart "rise_" b2
  let b4 := dropStart "wash_" b3
  let b5 := dropStart "fabric_" b4
  let base := jsTrim (underscoresToSpaces b5)
  if base == "" then []
  else
    let extra : List String :=
      (if strStartsS "wash_" k then
        (if strIncl base "light" then ["light wash", "faded"] else []) ++
        (if strIncl base "dark" then ["dark wash", "rinse"] else []) ++
        (if strIncl base "medium" then ["mid wash", "medium wash"] else []) ++
        (if strIncl base "black" then ["black denim", "black"] else [])
      else []) ++
      (if strStartsS "rise_" k then
        (if strIncl base "low" then ["low-rise", "low rise"] else []) ++
        (if strIncl base "mid" then ["mid-rise", "mid rise"] else []) ++
        (if strIncl base "high" then ["high-rise", "high rise"] else [])
      else []) ++
      (if strStartsS "fit_" k then
        (if strIncl base "straight" then ["straight-leg", "straight leg"] else []) ++
        (if strIncl base "baggy" then ["baggy", "loose"] else []) ++
        (if strIncl base "slim" then ["slim", "taper"] else []) ++
        (if strIncl base "flare" then ["flare", "bootcut"] else [])
      else []) ++
      (if strStartsS "fabric_" k then
        (if strIncl base "rigid" then ["rigid", "non-stretch"] else []) ++
        (if strIncl base "stretch" then ["stretch", "elastane"] else []) ++
        (if strIncl base "soft" then ["soft"] else [])
      else [])
    let underscored :=
      if strStartsS "era_" k then k.drop 4
      else if strStartsS "fit_" k then k.drop 4
      else if strStartsS "rise_" k then k.drop 5
      else if strStartsS "wash_" k then k.drop 5
      else if strStartsS "fabric_" k then k.drop 7
      else k
    dedupFirstAux []
      ((([base, underscored] ++ extra).map jsTrim).filter (fun s => !(s == "")))

/- ================= recommend-jeans/index.ts : taste summary ================= -/

/-- `TasteItem` (recommend-jeans/index.ts:53). -/
structure TasteItem where
  key : String
  weight : ℚ
deriving DecidableEq

/-- `GroupTasteBucket` (recommend-jeans/index.ts:82). -/
structure GroupTasteBucket where
  likes : List TasteItem
  dislikes : List TasteItem
deriving DecidableEq

/-- `GroupedTaste` (recommend-jeans/index.ts:83), one bucket per group. -/
structure GroupedTaste where
  era : GroupTasteBucket
  fit : GroupTasteBucket
  rise : GroupTasteBucket
  wash : GroupTasteBucket
  fabric : GroupTasteBucket
deriving DecidableEq

/-- `TasteGroup` (recommend-jeans/index.ts:81). -/
inductive TasteGroup where
  | era | fit | rise | wash | fabric
deriving DecidableEq

/-- `groupForKey` (recommend-jeans/index.ts:638). -/
def groupForKey (key : String) : Option TasteGroup :=
  if strStartsS "era_" key then some TasteGroup.era
  else if strStartsS "fit_" key then some TasteGroup.fit
  else if strStartsS "rise_" key then some TasteGroup.rise
  else if strStartsS "wash_" key then some TasteGroup.wash
  else if strStartsS "fabric_" key then some TasteGroup.fabric
  else none

/-- A taste vector: string-keyed numeric map in insertion order. -/
abbrev TasteVector := List (String × ℚ)

/-- The entries of the vector falling in group `g`, in insertion order
(the `grouped[g].push` pass of recommend-jeans/index.ts:663). -/
def entriesFor (g : TasteGroup) (tv : TasteVector) : TasteVector :=
  tv.filter (fun e => decide (groupForKey e.1 = some g))

/-- One group bucket of `summarizeTasteVectorGrouped`
(recommend-jeans/index.ts:679-693), with the default parameters
`topPerGroup = 2`, `bottomPerGroup = 1`, `threshold = 0.25` — the only
parameters call sites ever use.  `Array.prototype.sort` is stable, modelled
by `List.mergeSort`. -/
def mkBucket (arr : TasteVector) : GroupTasteBucket :=
  ⟨(((arr.filter (fun x => decide ((0.25 : ℚ) < x.2))).mergeSort
      (fun a b => decide (b.2 ≤ a.2))).take 2).map (fun x => ⟨x.1, x.2⟩),
   (((arr.filter (fun x => decide (x.2 < -(0.25 : ℚ)))).mergeSort
      (fun a b => decide (a.2 ≤ b.2))).take 1).map (fun x => ⟨x.1, x.2⟩)⟩

/-- `summarizeTasteVectorGrouped` (recommend-jeans/index.ts:647), at its
default parameters.  On `ℚ` the `Number.isFinite` entry guard never fires. -/
def summarizeTasteVectorGrouped (tv : Option TasteVector) : Option GroupedTaste :=
  match tv with
  | none => none
  | some entries =>
      some ⟨mkBucket (entriesFor TasteGroup.era entries),
            mkBucket (entriesFor TasteGroup.fit entries),
            mkBucket (entriesFor TasteGroup.rise entries),
            mkBucket (entriesFor TasteGroup.wash entries),
            mkBucket (entriesFor TasteGroup.fabric entries)⟩

/-- `enforceVibeOnFitRise` (recommend-jeans/index.ts:698). -/
def enforceVibeOnFitRise (ts : Option GroupedTaste) : Option GroupedTaste :=
  match ts with
  | none => none
  | some t => some { t with fit := ⟨[], t.fit.dislikes⟩, rise := ⟨[], t.rise.dislikes⟩ }

/-- The taste summary actually passed to generation and scoring
(recommend-jeans/index.ts:1042 and :1245):
`vibeProfile ? enforceVibeOnFitRise(rawSummary) : rawSummary`.
The vibe profile is reduced to its presence (its id). -/
def tasteSummaryUsed (vibeProfile : Option String) (rawSummary : Option GroupedTaste) :
    Option GroupedTaste :=
  match vibeProfile with
  | some _ => enforceVibeOnFitRise rawSummary
  | none => rawSummary

/- ================= recommend-jeans/index.ts : sub-scores ================= -/

/-- The capped hit-counting loop of `scoreTasteMatch`
(recommend-jeans/index.ts:297-309): increment on a needle match, break as
soon as the cap is reached. -/
def countHits (recText : String) (cap : Nat) : List TasteItem → Nat → Nat
  | [], acc => acc
  | it :: rest, acc =>
      let needles := tasteKeyToNeedles it.key
      let acc2 := if !needles.isEmpty && includesOne recText needles then acc + 1 else acc
      if cap ≤ acc2 then acc2 else countHits recText cap rest acc2

/-- `scoreTasteMatch` (recommend-jeans/index.ts:278).  `points` and
`maxPoints` are accumulated per group exactly as in the source
(likeCap = 2, dislikeCap = 1). -/
def scoreTasteMatch (recText : String) (tasteSummary : Option GroupedTaste) : ℚ :=
  match tasteSummary with
  | none => 0.5
  | some t =>
      let buckets := [t.era, t.fit, t.rise, t.wash, t.fabric]
      let acc := buckets.foldl
        (fun pm g =>
          let likeHits := countHits recText 2 g.likes 0
          let dislikeHits := countHits recText 1 g.dislikes 0
          (pm.1 + (likeHits : ℚ) * 1.0 - (dislikeHits : ℚ) * 1.2,
           pm.2 + 2 * 1.0 + 1 * 1.2))
        ((0 : ℚ), (0 : ℚ))
      let normalized := 0.5 + (if acc.2 > 0 then acc.1 / (2 * acc.2) else 0)
      clamp01 normalized

/-- Truthiness of `xs?.length` for `xs : string[] | null`. -/
def nonEmptyOpt : Option (List String) → Bool
  | some (_ :: _) => true
  | _ => false

/-- `scoreVibeConstraint` (recommend-jeans/index.ts:322): returns the
`{ok, score}` pair. -/
def scoreVibeConstraint (rec : DenimRec)
    (allowedFits allowedRises : Option (List String)) : Bool × ℚ :=
  let fit := normS rec.fit
  let rise := normS rec.rise
  if nonEmptyOpt allowedFits && !(((allowedFits.getD []).map normS).contains fit) then
    (false, 0.05)
  else if nonEmptyOpt allowedRises && !(((allowedRises.getD []).map normS).contains rise) then
    (false, 0.05)
  else
    (true, if nonEmptyOpt allowedFits || nonEmptyOpt allowedRises then 1.0 else 0.7)

/-- `scoreAnchorStrength` (recommend-jeans/index.ts:344).  `none` models the
`null` / non-finite distance, mapped to 0.25. -/
def scoreAnchorStrength (anchorDistance : Option ℚ) : ℚ :=
  match anchorDistance with
  | none => 0.25
  | some d => clamp01 (1 - (d - 0.1) / 0.5)

/-- `hasTasteDislikeHit` (recommend-jeans/index.ts:353). -/
def hasTasteDislikeHit (recText : String) (tasteSummary : Option GroupedTaste) : Bool :=
  match tasteSummary with
  | none => false
  | some t =>
      [t.era, t.fit, t.rise, t.wash, t.fabric].any
        (fun g => g.dislikes.any
          (fun it =>
            let needles := tasteKeyToNeedles it.key
            !needles.isEmpty && includesOne recText needles))

/-- The `weakAnchor` test of `computeRecConfidence`
(recommend-jeans/index.ts:395): distance non-null and above 0.55. -/
def weakAnchor : Option ℚ → Bool
  | none => false
  | some d => decide ((0.55 : ℚ) < d)

/-- The raw blend of `computeRecConfidence` (recommend-jeans/index.ts:389). -/
def rawCombine (vibeScore tasteScore anchorScore : ℚ) : ℚ :=
  0.12 + 0.58 * vibeScore + 0.22 * tasteScore + 0.08 * anchorScore

/-- The confidence label values. -/
inductive ConfidenceLabel where
  | strong | good | bridge
deriving DecidableEq

/-- The label ternary of `computeRecConfidence` (recommend-jeans/index.ts:397). -/
def labelFor (s : ℚ) : ConfidenceLabel :=
  if s ≥ 0.78 then ConfidenceLabel.strong
  else if s ≥ 0.6 then ConfidenceLabel.good
  else ConfidenceLabel.bridge

/-- `computeRecConfidence` (recommend-jeans/index.ts:371): blends the three
sub-scores, caps at 0.25 on a vibe violation, and applies the
dislike/weak-anchor override (force `bridge`, cap at 0.69). -/
def computeRecConfidence (rec : DenimRec)
    (allowedFits allowedRises : Option (List String))
    (tasteSummary : Option GroupedTaste) (anchorDistance : Option ℚ) :
    ℚ × ConfidenceLabel :=
  let recText := tokenizeRecText rec
  let vibe := scoreVibeConstraint rec allowedFits allowedRises
  let taste := scoreTasteMatch recText tasteSummary
  let anchor := scoreAnchorStrength anchorDistance
  let score := rawCombine vibe.2 taste anchor
  let finalScore := if vibe.1 then clamp01 score else clamp01 (min score 0.25)
  if hasTasteDislikeHit recText tasteSummary || weakAnchor anchorDistance then
    (min finalScore 0.69, ConfidenceLabel.bridge)
  else
    (finalScore, labelFor finalScore)

/- ================= taste-update/index.ts ================= -/

/-- The feedback action kind (taste-update/index.ts:25). -/
inductive FeedbackAction where
  | save | bought | not_for_me
deriving DecidableEq

/-- `weightFor` (taste-update/index.ts:58). -/
def weightFor : FeedbackAction → ℚ
  | FeedbackAction.bought => 1.5
  | FeedbackAction.save => 0.6
  | FeedbackAction.not_for_me => -1

/-- The rated item shape seen by `taste-update` (taste-update/index.ts:15):
all descriptive fields are optional there. -/
structure FeedbackRec where
  brand : String
  model : String
  era_inspiration : Option String
  fit : Option String
  rise : Option String
  wash : Option String
  stretch_level : Option String
deriving DecidableEq

/-- `normalizeText` (taste-update/index.ts:68): `(s ?? "").toLowerCase()`. -/
def normalizeText (s : Option String) : String := jsLower (s.getD "")

/-- `extractFeatures` (taste-update/index.ts:72): substring vocabulary over
the normalized text fields, deduplicated first-occurrence
(`Array.from(new Set(feats))`). -/
def extractFeatures (rec : FeedbackRec) : List String :=
  let era := normalizeText rec.era_inspiration
  let fit := normalizeText rec.fit
  let rise := normalizeText rec.rise
  let wash := normalizeText rec.wash
  let stretch := normalizeText rec.stretch_level
  let feats :=
    (if strIncl era "90" then ["era_90s"] else []) ++
    (if strIncl era "80" then ["era_80s"] else []) ++
    (if strIncl era "y2k" then ["era_y2k"] else []) ++
    (if strIncl era "heritage" || strIncl era "vintage" then ["era_heritage"] else []) ++
    (if strIncl fit "slim" then ["fit_slim"] else []) ++
    (if strIncl fit "straight" then ["fit_straight"] else []) ++
    (if strIncl fit "relaxed" then ["fit_relaxed"] else []) ++
    (if strIncl fit "baggy" || strIncl fit "skater" then ["fit_baggy"] else []) ++
    (if strIncl fit "boot" then ["fit_bootcut"] else []) ++
    (if strIncl fit "cowboy" then ["fit_cowboy_cut"] else []) ++
    (if strIncl rise "low" then ["rise_low"] else []) ++
    (if strIncl rise "mid" then ["rise_mid"] else []) ++
    (if strIncl rise "high" then ["rise_high"] else []) ++
    (if strIncl wash "light" then ["wash_light"] else []) ++
    (if strIncl wash "medium" || strIncl wash "mid" then ["wash_medium"] else []) ++
    (if strIncl wash "dark" then ["wash_dark"] else []) ++
    (if strIncl wash "raw" then ["wash_raw"] else []) ++
    (if strIncl wash "distress" || strIncl wash "faded" then ["wash_distressed"] else []) ++
    (if strIncl stretch "non" || strIncl stretch "rigid" then ["fabric_rigid"] else []) ++
    (if strIncl stretch "stretch" then ["fabric_stretch"] else [])
  dedupFirstAux [] feats

/-- `inc` (taste-update/index.ts:64) on an association-list map:
`map[key] = (map[key] ?? 0) + w`, appending a fresh key in insertion
order. -/
def incList (m : TasteVector) (key : String) (w : ℚ) : TasteVector :=
  if m.any (fun e => e.1 == key) then
    m.map (fun e => if e.1 == key then (e.1, e.2 + w) else e)
  else m ++ [(key, w)]

/-- The delta construction of the handler (taste-update/index.ts:262):
`for (const f of features) inc(delta, f, w)` starting from `{}`. -/
def computeDelta (features : List String) (w : ℚ) : TasteVector :=
  features.foldl (fun acc f => incList acc f w) []

/-- `map[key] ?? 0` lookup on the association-list map. -/
def lookup0 (m : TasteVector) (k : String) : ℚ :=
  ((m.find? (fun e => e.1 == k)).map (fun e => e.2)).getD 0

/-- Truncating clamp into `[lo, hi]`. -/
def clampQ (lo hi x : ℚ) : ℚ := max lo (min hi x)

/-- The key set of the merged update, current keys first then fresh delta
keys, deduplicated. -/
def applyKeys (current delta : TasteVector) : List String :=
  dedupFirstAux [] (current.map (fun e => e.1) ++ delta.map (fun e => e.1))

/-- Modelled from the spec: the SQL function `taste_vector_apply` (invoked
via RPC at taste-update/index.ts:319; its SQL body is not part of the
source tree).  Per spec §4.1: for every key present in either the decayed
current vector or the new delta,
`value = clamp(current[key] * decayFactor + delta[key], clampMin, clampMax)`;
zero-valued keys may be retained. -/
def taste_vector_apply (current delta : TasteVector) (decay clampMin clampMax : ℚ) :
    TasteVector :=
  (applyKeys current delta).map
    (fun k => (k, clampQ clampMin clampMax (lookup0 current k * decay + lookup0 delta k)))

/-- `daysElapsed` (taste-update/index.ts:306): wall-clock days since the
last update, floored at zero; a missing/unparseable timestamp is the
falsy `0`, giving `daysElapsed = 0`.  Timestamps are in milliseconds. -/
def daysElapsed (lastUpdatedAt nowAt : ℚ) : ℚ :=
  if lastUpdatedAt ≠ 0 then max 0 ((nowAt - lastUpdatedAt) / (1000 * 60 * 60 * 24)) else 0

/-- `effectiveDecay` (taste-update/index.ts:313):
`daysElapsed ? Math.pow(baseDecay, daysElapsed) : 1`. -/
noncomputable def effectiveDecay (baseDecay lastUpdatedAt nowAt : ℚ) : ℝ :=
  if daysElapsed lastUpdatedAt nowAt ≠ 0 then
    Real.rpow (baseDecay : ℝ) ((daysElapsed lastUpdatedAt nowAt : ℚ) : ℝ)
  else 1

/-- `profile.taste_decay ?? 0.985` (taste-update/index.ts:290). -/
def baseDecayOf (tasteDecay : Option ℚ) : ℚ := tasteDecay.getD 0.985

/-- The profile columns read by the handler (taste-update/index.ts:34). -/
structure ProfileTasteRow where
  taste_vector : Option TasteVector
  taste_decay : Option ℚ
  taste_clamp_min : Option ℚ
  taste_clamp_max : Option ℚ
deriving DecidableEq

/-- The profile-loading step of the handler (taste-update/index.ts:279-292):
a missing profile row is rejected with "Profile not found" (404); on an
existing row, a null `taste_vector` becomes the empty vector and the decay
and clamp parameters get their defaults. -/
def loadTasteState (profile : Option ProfileTasteRow) :
    Except String (TasteVector × ℚ × ℚ × ℚ) :=
  match profile with
  | none => Except.error "Profile not found"
  | some p =>
      Except.ok (p.taste_vector.getD [],
                 baseDecayOf p.taste_decay,
                 p.taste_clamp_min.getD (-30),
                 p.taste_clamp_max.getD 30)

/- ================= claim-side constructions ================= -/

/-- The JS-object update `v[k] = 0`: overwrite in place when the key exists,
append at the end of insertion order otherwise. -/
def setKeyZero (k : String) (tv : TasteVector) : TasteVector :=
  if tv.any (fun e => e.1 == k) then
    tv.map (fun e => if e.1 == k then (e.1, 0) else e)
  else tv ++ [(k, 0)]

/-- The JS-object update `delete v[k]`. -/
def removeKey (k : String) (tv : TasteVector) : TasteVector :=
  tv.filter (fun e => !(e.1 == k))

/- ================= basic lemmas ================= -/

theorem clamp01_nonneg (q : ℚ) : 0 ≤ clamp01 q := by
  unfold clamp01; split_ifs with h1 h2
  · norm_num
  · norm_num
  · linarith

theorem clamp01_le_one (q : ℚ) : clamp01 q ≤ 1 := by
  unfold clamp01; split_ifs with h1 h2
  · norm_num
  · norm_num
  · linarith

theorem clamp01_le_of_le {q c : ℚ} (h : q ≤ c) (hc : 0 ≤ c) : clamp01 q ≤ c := by
  unfold clamp01; split_ifs with h1 h2
  · exact hc
  · linarith
  · exact h

theorem clamp01_eq_one {q : ℚ} (h : 1 ≤ q) : clamp01 q = 1 := by
  unfold clamp01; split_ifs with h1 h2
  · linarith
  · rfl
  · linarith

theorem clamp01_eq_zero {q : ℚ} (h : q ≤ 0) : clamp01 q = 0 := by
  unfold clamp01; split_ifs with h1 h2
  · rfl
  · linarith
  · linarith

theorem clamp01_mono {a b : ℚ} (h : a ≤ b) : clamp01 a ≤ clamp01 b := by
  unfold clamp01; split_ifs <;> linarith

theorem labelFor_strong_iff (s : ℚ) :
    labelFor s = ConfidenceLabel.strong ↔ (0.78 : ℚ) ≤ s := by
  unfold labelFor; split_ifs with h1 h2 <;> simp_all <;> linarith

theorem labelFor_good_iff (s : ℚ) :
    labelFor s = ConfidenceLabel.good ↔ (0.6 : ℚ) ≤ s ∧ s < 0.78 := by
  unfold labelFor; split_ifs with h1 h2 <;> simp_all <;> linarith

theorem labelFor_bridge_iff (s : ℚ) :
    labelFor s = ConfidenceLabel.bridge ↔ s < 0.6 := by
  unfold labelFor; split_ifs with h1 h2 <;> simp_all <;> linarith

/- ================= C1 ================= -/

/-- C1: for every recommendation, constraint lists, taste summary and anchor
distance, the confidence score lies in [0,1]; when no override rule fires
the label is exactly the threshold bucketing of the returned score
(>= 0.78 strong, >= 0.60 good, else bridge); when an override fires the
label is `bridge` and the score is capped at 0.69; hence a `strong` label
always comes with a score >= 0.78. -/
theorem confidence_score_label_consistent (rec : DenimRec)
    (aF aR : Option (List String)) (ts : Option GroupedTaste) (d : Option ℚ) :
    0 ≤ (computeRecConfidence rec aF aR ts d).1 ∧
    (computeRecConfidence rec aF aR ts d).1 ≤ 1 ∧
    (∀ s : ℚ, (labelFor s = ConfidenceLabel.strong ↔ (0.78 : ℚ) ≤ s) ∧
       (labelFor s = ConfidenceLabel.good ↔ (0.6 : ℚ) ≤ s ∧ s < 0.78) ∧
       (labelFor s = ConfidenceLabel.bridge ↔ s < 0.6)) ∧
    ((hasTasteDislikeHit (tokenizeRecText rec) ts || weakAnchor d) = false →
       (computeRecConfidence rec aF aR ts d).2 =
         labelFor (computeRecConfidence rec aF aR ts d).1) ∧
    ((hasTasteDislikeHit (tokenizeRecText rec) ts || weakAnchor d) = true →
       (computeRecConfidence rec aF aR ts d).2 = ConfidenceLabel.bridge ∧
       (computeRecConfidence rec aF aR ts d).1 ≤ 0.69) ∧
    ((computeRecConfidence rec aF aR ts d).2 = ConfidenceLabel.strong →
       (0.78 : ℚ) ≤ (computeRecConfidence rec aF aR ts d).1) := by
  set sc := rawCombine (scoreVibeConstraint rec aF aR).2
      (scoreTasteMatch (tokenizeRecText rec) ts) (scoreAnchorStrength d) with hsc
  set FS := (if (scoreVibeConstraint rec aF aR).1 then clamp01 sc
             else clamp01 (min sc 0.25)) with hFS
  have hFS0 : 0 ≤ FS := by
    rw [hFS]; split_ifs
    · exact clamp01_nonneg _
    · exact clamp01_nonneg _
  have hFS1 : FS ≤ 1 := by
    rw [hFS]; split_ifs
    · exact clamp01_le_one _
    · exact clamp01_le_one _
  have hcrc : computeRecConfidence rec aF aR ts d =
      (if hasTasteDislikeHit (tokenizeRecText rec) ts || weakAnchor d
       then (min FS 0.69, ConfidenceLabel.bridge) else (FS, labelFor FS)) := rfl
  cases hb : (hasTasteDislikeHit (tokenizeRecText rec) ts || weakAnchor d) with
  | false =>
      rw [hcrc, hb]
      simp only [Bool.false_eq_true, if_false]
      refine ⟨hFS0, hFS1, ?_, ?_, ?_, ?_⟩
      · intro s; exact ⟨labelFor_strong_iff s, labelFor_good_iff s, labelFor_bridge_iff s⟩
      · simp
      · simp
      · intro h; exact (labelFor_strong_iff FS).mp h
  | true =>
      rw [hcrc, hb]
      simp only [if_true]
      refine ⟨le_min hFS0 (by norm_num), (min_le_left _ _).trans hFS1, ?_, ?_, ?_, ?_⟩
      · intro s; exact ⟨labelFor_strong_iff s, labelFor_good_iff s, labelFor_bridge_iff s⟩
      · simp
      · intro _; exact ⟨by trivial, min_le_right _ _⟩
      · simp

/-- A sample recommendation used to instantiate hypothesis-bearing theorems
at concrete inputs. -/
def recSample : DenimRec :=
  ⟨"Lee", "Rider", "90s minimalist", "straight", "mid", "medium wash",
   "rigid", "clean lines", "matches the anchor"⟩

/-- C1 witness: at a concrete input with no override, the label is the
threshold bucketing of the returned score. -/
theorem confidence_score_label_consistent_witness :
    (computeRecConfidence recSample none none none none).2 =
      labelFor (computeRecConfidence recSample none none none none).1 :=
  (confidence_score_label_consistent recSample none none none none).2.2.2.1 rfl

/- ================= C2 ================= -/

/-- C2: if a non-empty allowed-fit list excludes the fit of the candidate (after
case-insensitive normalization), or a non-empty allowed-rise list excludes
its rise, the vibe sub-score is 0.05 with `ok = false` and the returned
confidence score is at most 0.25, whatever the taste summary and anchor
distance are. -/
theorem vibe_violation_caps_score (rec : DenimRec)
    (aF aR : Option (List String)) (ts : Option GroupedTaste) (d : Option ℚ)
    (h : (nonEmptyOpt aF = true ∧ ((aF.getD []).map normS).contains (normS rec.fit) = false) ∨
         (nonEmptyOpt aR = true ∧ ((aR.getD []).map normS).contains (normS rec.rise) = false)) :
    scoreVibeConstraint rec aF aR = (false, 0.05) ∧
    (computeRecConfidence rec aF aR ts d).1 ≤ 0.25 := by
  have hv : scoreVibeConstraint rec aF aR = (false, 0.05) := by
    simp only [scoreVibeConstraint]
    rcases h with ⟨h1, h2⟩ | ⟨h1, h2⟩
    · rw [if_pos (show (nonEmptyOpt aF &&
        !((aF.getD []).map normS).contains (normS rec.fit)) = true by
          rw [h1, h2]; rfl)]
    · cases hc1 : (nonEmptyOpt aF &&
        !((aF.getD []).map normS).contains (normS rec.fit)) with
      | true => exact if_pos rfl
      | false =>
          rw [if_neg (by simp), if_pos (show (nonEmptyOpt aR &&
            !((aR.getD []).map normS).contains (normS rec.rise)) = true by
              rw [h1, h2]; rfl)]
  refine ⟨hv, ?_⟩
  have hcrc : computeRecConfidence rec aF aR ts d =
      (if hasTasteDislikeHit (tokenizeRecText rec) ts || weakAnchor d
       then (min (if (scoreVibeConstraint rec aF aR).1
                  then clamp01 (rawCombine (scoreVibeConstraint rec aF aR).2
                    (scoreTasteMatch (tokenizeRecText rec) ts) (scoreAnchorStrength d))
                  else clamp01 (min (rawCombine (scoreVibeConstraint rec aF aR).2
                    (scoreTasteMatch (tokenizeRecText rec) ts) (scoreAnchorStrength d)) 0.25))
              0.69, ConfidenceLabel.bridge)
       else ((if (scoreVibeConstraint rec aF aR).1
              then clamp01 (rawCombine (scoreVibeConstraint rec aF aR).2
                (scoreTasteMatch (tokenizeRecText rec) ts) (scoreAnchorStrength d))
              else clamp01 (min (rawCombine (scoreVibeConstraint rec aF aR).2
                (scoreTasteMatch (tokenizeRecText rec) ts) (scoreAnchorStrength d)) 0.25)),
             labelFor (if (scoreVibeConstraint rec aF aR).1
              then clamp01 (rawCombine (scoreVibeConstraint rec aF aR).2
                (scoreTasteMatch (tokenizeRecText rec) ts) (scoreAnchorStrength d))
              else clamp01 (min (rawCombine (scoreVibeConstraint rec aF aR).2
                (scoreTasteMatch (tokenizeRecText rec) ts) (scoreAnchorStrength d)) 0.25)))) := rfl
  rw [hcrc, hv]
  have hle : clamp01 (min (rawCombine ((false, (0.05 : ℚ)) : Bool × ℚ).2
      (scoreTasteMatch (tokenizeRecText rec) ts) (scoreAnchorStrength d)) 0.25) ≤ 0.25 :=
    clamp01_le_of_le (min_le_right _ _) (by norm_num)
  simp only [Bool.false_eq_true, if_false]
  split_ifs with hb
  · exact (min_le_left _ _).trans hle
  · exact hle

/-- C2 witness: `allowedFits = ["Straight"]` against fit `"Baggy"` yields the
0.05 vibe sub-score and a confidence of at most 0.25. -/
theorem vibe_violation_caps_score_witness :
    scoreVibeConstraint ⟨"L", "5", "90s", "Baggy", "mid", "light", "rigid", "w", "a"⟩
      (some ["Straight"]) none = (false, 0.05) ∧
    (computeRecConfidence ⟨"L", "5", "90s", "Baggy", "mid", "light", "rigid", "w", "a"⟩
      (some ["Straight"]) none none none).1 ≤ 0.25 :=
  vibe_violation_caps_score _ (some ["Straight"]) none none none
    (Or.inl ⟨rfl, by decide⟩)

/- ================= C3 ================= -/

/-- C3: a dislike-keyword hit in the combined recommendation text, or a
non-null anchor distance above 0.55, forces the label to `bridge` and caps
the returned score at 0.69. -/
theorem dislike_or_weak_anchor_forces_bridge (rec : DenimRec)
    (aF aR : Option (List String)) (ts : Option GroupedTaste) (d : Option ℚ)
    (h : hasTasteDislikeHit (tokenizeRecText rec) ts = true ∨
         (∃ x : ℚ, d = some x ∧ (0.55 : ℚ) < x)) :
    (computeRecConfidence rec aF aR ts d).2 = ConfidenceLabel.bridge ∧
    (computeRecConfidence rec aF aR ts d).1 ≤ 0.69 := by
  have hb : (hasTasteDislikeHit (tokenizeRecText rec) ts || weakAnchor d) = true := by
    rcases h with h | ⟨x, hx, hlt⟩
    · simp [h]
    · simp [weakAnchor, hx, hlt]
  have h1 := (confidence_score_label_consistent rec aF aR ts d).2.2.2.2.1 hb
  exact h1

/-- C3 witness: an anchor distance of 0.6 (> 0.55) forces `bridge` with a
score of at most 0.69 at a concrete recommendation. -/
theorem dislike_or_weak_anchor_forces_bridge_witness :
    (computeRecConfidence recSample none none none (some 0.6)).2 =
      ConfidenceLabel.bridge ∧
    (computeRecConfidence recSample none none none (some 0.6)).1 ≤ 0.69 :=
  dislike_or_weak_anchor_forces_bridge recSample none none none (some 0.6)
    (Or.inr ⟨0.6, rfl, by norm_num⟩)

/- ================= C4 ================= -/

/-- C4: with no fit/rise constraint lists (null or empty), no taste summary
and a null anchor distance, the sub-scores are vibe 0.7, taste 0.5 and
anchor 0.25, the raw blend is 0.12 + 0.58*0.7 + 0.22*0.5 + 0.08*0.25 =
0.656, and the returned result is score 0.656 with label `good`. -/
theorem default_neutral_scoring (rec : DenimRec) (aF aR : Option (List String))
    (hF : aF = none ∨ aF = some []) (hR : aR = none ∨ aR = some []) :
    scoreVibeConstraint rec aF aR = (true, 0.7) ∧
    scoreTasteMatch (tokenizeRecText rec) none = 0.5 ∧
    scoreAnchorStrength none = 0.25 ∧
    rawCombine 0.7 0.5 0.25 = 0.656 ∧
    computeRecConfidence rec aF aR none none = (0.656, ConfidenceLabel.good) := by
  have hv : scoreVibeConstraint rec aF aR = (true, 0.7) := by
    rcases hF with rfl | rfl <;> rcases hR with rfl | rfl <;>
      simp [scoreVibeConstraint, nonEmptyOpt]
  have hraw : rawCombine 0.7 0.5 0.25 = 0.656 := by norm_num [rawCombine]
  have hclamp : clamp01 (0.656 : ℚ) = 0.656 := by unfold clamp01; norm_num
  have hlabel : labelFor (0.656 : ℚ) = ConfidenceLabel.good := by
    unfold labelFor; norm_num
  refine ⟨hv, rfl, rfl, hraw, ?_⟩
  have hcrc : computeRecConfidence rec aF aR none none =
      (if hasTasteDislikeHit (tokenizeRecText rec) none || weakAnchor none
       then (min (if (scoreVibeConstraint rec aF aR).1
                  then clamp01 (rawCombine (scoreVibeConstraint rec aF aR).2 0.5 0.25)
                  else clamp01 (min (rawCombine (scoreVibeConstraint rec aF aR).2 0.5 0.25) 0.25))
              0.69, ConfidenceLabel.bridge)
       else ((if (scoreVibeConstraint rec aF aR).1
              then clamp01 (rawCombine (scoreVibeConstraint rec aF aR).2 0.5 0.25)
              else clamp01 (min (rawCombine (scoreVibeConstraint rec aF aR).2 0.5 0.25) 0.25)),
             labelFor (if (scoreVibeConstraint rec aF aR).1
              then clamp01 (rawCombine (scoreVibeConstraint rec aF aR).2 0.5 0.25)
              else clamp01 (min (rawCombine (scoreVibeConstraint rec aF aR).2 0.5 0.25) 0.25)))) := rfl
  rw [hcrc, hv]
  simp only [Bool.false_eq_true, Bool.or_self, if_false, if_true]
  rw [hraw, hclamp, hlabel]
  have hov : (hasTasteDislikeHit (tokenizeRecText rec) none || weakAnchor none) = false := rfl
  rw [hov]
  simp

/-- C4 witness: the neutral-default result at a concrete recommendation with
empty constraint lists. -/
theorem default_neutral_scoring_witness :
    computeRecConfidence recSample (some []) none none none =
      (0.656, ConfidenceLabel.good) :=
  (default_neutral_scoring recSample (some []) none (Or.inr rfl) (Or.inl rfl)).2.2.2.2

/- ================= C7 ================= -/

/-- C7: the anchor-strength sub-score is `clamp01 (1 - (d - 0.10) / 0.50)`:
1 for distances at most 0.10, 0 for distances at least 0.60, monotonically
non-increasing in the distance, and exactly 0.25 for a null distance. -/
theorem anchor_strength_affine (d e : ℚ) :
    scoreAnchorStrength (some d) = clamp01 (1 - (d - 0.1) / 0.5) ∧
    (d ≤ 0.1 → scoreAnchorStrength (some d) = 1) ∧
    ((0.6 : ℚ) ≤ d → scoreAnchorStrength (some d) = 0) ∧
    (d ≤ e → scoreAnchorStrength (some e) ≤ scoreAnchorStrength (some d)) ∧
    scoreAnchorStrength none = 0.25 := by
  have hdiv : ∀ x : ℚ, (x - 0.1) / 0.5 = 2 * (x - 0.1) := by intro x; ring
  refine ⟨rfl, ?_, ?_, ?_, rfl⟩
  · intro h
    show clamp01 (1 - (d - 0.1) / 0.5) = 1
    exact clamp01_eq_one (by rw [hdiv]; linarith)
  · intro h
    show clamp01 (1 - (d - 0.1) / 0.5) = 0
    exact clamp01_eq_zero (by rw [hdiv]; linarith)
  · intro h
    show clamp01 (1 - (e - 0.1) / 0.5) ≤ clamp01 (1 - (d - 0.1) / 0.5)
    exact clamp01_mono (by rw [hdiv, hdiv]; linarith)

/-- C7 witness: monotonicity instantiated at distances 0.2 ≤ 0.3, plus the
null-distance default. -/
theorem anchor_strength_affine_witness :
    scoreAnchorStrength (some 0.3) ≤ scoreAnchorStrength (some 0.2) ∧
    scoreAnchorStrength none = 0.25 :=
  ⟨(anchor_strength_affine 0.2 0.3).2.2.2.1 (by norm_num),
   (anchor_strength_affine 0.2 0.3).2.2.2.2⟩

/- ================= C5 ================= -/

/-- C5: the effective decay factor equals `baseDecay ^ daysElapsed` (real
exponentiation), `daysElapsed` is floored at zero, a missing last-update
timestamp (the falsy 0) gives `daysElapsed = 0` and a factor of exactly 1,
and the per-user base decay defaults to 0.985. -/
theorem effective_decay_is_pow (b last now : ℚ) :
    effectiveDecay b last now = Real.rpow (b : ℝ) ((daysElapsed last now : ℚ) : ℝ) ∧
    0 ≤ daysElapsed last now ∧
    daysElapsed 0 now = 0 ∧
    effectiveDecay b 0 now = 1 ∧
    baseDecayOf none = 0.985 := by
  have hd0 : daysElapsed 0 now = 0 := by unfold daysElapsed; simp
  refine ⟨?_, ?_, hd0, ?_, rfl⟩
  · unfold effectiveDecay
    split_ifs with h
    · rfl
    · push_neg at h
      rw [h, Rat.cast_zero]
      exact (Real.rpow_zero _).symm
  · unfold daysElapsed
    split_ifs with h
    · exact le_max_left _ _
    · exact le_refl 0
  · unfold effectiveDecay
    rw [hd0]
    simp

/- ================= C8 (corrected) ================= -/

/-- C8 counterexample: at the concrete input "profile row missing", the
profile-loading step of the handler returns the `Profile not found` error — it
does not proceed with an empty vector. -/
theorem missing_profile_row_fails :
    loadTasteState none = Except.error "Profile not found" ∧
    loadTasteState none ≠
      Except.ok ([], baseDecayOf none, (-30 : ℚ), (30 : ℚ)) :=
  ⟨rfl, fun hcon => Except.noConfusion hcon⟩

/-- C8 (amended): when the profile row exists but its `taste_vector` is
null, the handler proceeds with the empty vector (and defaulted decay and
clamp parameters); when the profile row itself is missing, the call is
rejected with `Profile not found` and no update happens. -/
theorem missing_vector_defaults_empty (p : ProfileTasteRow)
    (h : p.taste_vector = none) :
    loadTasteState (some p) =
      Except.ok ([], baseDecayOf p.taste_decay,
        p.taste_clamp_min.getD (-30), p.taste_clamp_max.getD 30) ∧
    loadTasteState none = Except.error "Profile not found" := by
  refine ⟨?_, rfl⟩
  simp only [loadTasteState]
  rw [h]
  rfl

/-- C8 amended-claim witness at the all-null profile row. -/
theorem missing_vector_defaults_empty_witness :
    loadTasteState (some ⟨none, none, none, none⟩) =
      Except.ok ([], baseDecayOf none,
        (none : Option ℚ).getD (-30), (none : Option ℚ).getD 30) ∧
    loadTasteState none = Except.error "Profile not found" :=
  missing_vector_defaults_empty ⟨none, none, none, none⟩ rfl

/- ================= C10 ================= -/

/-- C10: whenever a vibe profile is present the summary actually used is
the enforced one; enforcement empties the fit/rise likes, keeps their
dislikes, and leaves the era/wash/fabric groups unchanged; consequently the
taste-match score after enforcement is unaffected by whatever liked fit or
rise features the raw summary contained. -/
theorem vibe_enforcement_blanks_fit_rise_likes (v : String) (ts : GroupedTaste)
    (l1 l2 : List TasteItem) (rt : String) :
    tasteSummaryUsed (some v) (some ts) = enforceVibeOnFitRise (some ts) ∧
    enforceVibeOnFitRise (some ts) =
      some ⟨ts.era, ⟨[], ts.fit.dislikes⟩, ⟨[], ts.rise.dislikes⟩,
            ts.wash, ts.fabric⟩ ∧
    scoreTasteMatch rt (enforceVibeOnFitRise
        (some { ts with fit := ⟨l1, ts.fit.dislikes⟩,
                        rise := ⟨l2, ts.rise.dislikes⟩ })) =
      scoreTasteMatch rt (enforceVibeOnFitRise (some ts)) :=
  ⟨rfl, rfl, rfl⟩

/- ================= C6 helper lemmas ================= -/

theorem dedupFirstAux_not_mem_seen (l : List String) :
    ∀ (seen : List String), ∀ x ∈ dedupFirstAux seen l, ¬ x ∈ seen := by
  induction l with
  | nil => intro seen x hx; simp [dedupFirstAux] at hx
  | cons a t ih =>
      intro seen x hx
      simp only [dedupFirstAux] at hx
      by_cases ha : seen.contains a = true
      · rw [if_pos ha] at hx
        exact ih seen x hx
      · rw [if_neg ha] at hx
        rcases List.mem_cons.mp hx with hxa | hxt
        · subst hxa
          intro hmem
          exact ha (by simpa using hmem)
        · intro hmem
          exact ih (a :: seen) x hxt (List.mem_cons_of_mem a hmem)

theorem dedupFirstAux_nodup (l : List String) :
    ∀ (seen : List String), (dedupFirstAux seen l).Nodup := by
  induction l with
  | nil => intro seen; simp [dedupFirstAux]
  | cons a t ih =>
      intro seen
      simp only [dedupFirstAux]
      by_cases ha : seen.contains a = true
      · rw [if_pos ha]; exact ih seen
      · rw [if_neg ha]
        refine List.nodup_cons.mpr ⟨?_, ih (a :: seen)⟩
        intro hmem
        exact dedupFirstAux_not_mem_seen t (a :: seen) a hmem (List.mem_cons_self a seen)

theorem foldl_incList (w : ℚ) : ∀ (fs : List String) (m : TasteVector),
    fs.Nodup → (∀ f ∈ fs, m.any (fun e => e.1 == f) = false) →
    fs.foldl (fun acc f => incList acc f w) m = m ++ fs.map (fun f => (f, w)) := by
  intro fs
  induction fs with
  | nil => intro m _ _; simp
  | cons a t ih =>
      intro m hnd hm
      have hma : m.any (fun e => e.1 == a) = false := hm a (List.mem_cons_self a t)
      have hstep : incList m a w = m ++ [(a, w)] := by
        unfold incList
        rw [if_neg (by simp [hma])]
      simp only [List.foldl_cons]
      rw [hstep, ih (m ++ [(a, w)]) (List.nodup_cons.mp hnd).2 ?_]
      · simp
      · intro f hf
        rw [List.any_append]
        have h1 : m.any (fun e => e.1 == f) = false := hm f (List.mem_cons_of_mem a hf)
        have h2 : a ≠ f := fun hEq => (List.nodup_cons.mp hnd).1 (hEq ▸ hf)
        simp [h1, h2]

theorem lookup0_map_const (w : ℚ) : ∀ (fs : List String) (f : String), f ∈ fs →
    lookup0 (fs.map (fun g => (g, w))) f = w := by
  intro fs
  induction fs with
  | nil => intro f hf; cases hf
  | cons a t ih =>
      intro f hf
      by_cases hEq : a = f
      · subst hEq
        unfold lookup0
        simp
      · have hmem : f ∈ t := by
          rcases List.mem_cons.mp hf with h | h
          · exact absurd h.symm hEq
          · exact h
        have : lookup0 ((a :: t).map (fun g => (g, w))) f =
            lookup0 (t.map (fun g => (g, w))) f := by
          unfold lookup0
          rw [List.map_cons, List.find?_cons_of_neg _ (by simp [hEq])]
        rw [this]
        exact ih f hmem

theorem computeDelta_eq_map (fs : List String) (w : ℚ) (hnd : fs.Nodup) :
    computeDelta fs w = fs.map (fun f => (f, w)) := by
  unfold computeDelta
  rw [foldl_incList w fs [] hnd (fun f _ => rfl)]
  simp

/- ================= C6 ================= -/

/-- The end-to-end example item of the spec: feedback on an item with
fit "straight" and era "90s". -/
def recBoughtExample : FeedbackRec :=
  ⟨"", "", some "90s", some "straight", none, none, none⟩

/-- C6: the action weights are +1.5 / +0.6 / -1.0 for bought / save /
not_for_me; the delta maps every deduplicated extracted feature to the
action weight; and on the example item (fit "straight", era "90s") a
`bought` action with an empty current vector, decay 1 and clamp [-30, 30]
yields the updated vector mapping era_90s and fit_straight to 1.5. -/
theorem feedback_weights_and_delta (a : FeedbackAction) (rec : FeedbackRec)
    (f : String) (hf : f ∈ extractFeatures rec) :
    weightFor FeedbackAction.bought = 1.5 ∧
    weightFor FeedbackAction.save = 0.6 ∧
    weightFor FeedbackAction.not_for_me = -1 ∧
    lookup0 (computeDelta (extractFeatures rec) (weightFor a)) f = weightFor a ∧
    extractFeatures recBoughtExample = ["era_90s", "fit_straight"] ∧
    computeDelta (extractFeatures recBoughtExample) (weightFor FeedbackAction.bought) =
      [("era_90s", 1.5), ("fit_straight", 1.5)] ∧
    taste_vector_apply []
      (computeDelta (extractFeatures recBoughtExample) (weightFor FeedbackAction.bought))
      1 (-30) 30 = [("era_90s", 1.5), ("fit_straight", 1.5)] := by
  have hnd : (extractFeatures rec).Nodup := dedupFirstAux_nodup _ []
  have hdelta : computeDelta (extractFeatures recBoughtExample)
      (weightFor FeedbackAction.bought) = [("era_90s", 1.5), ("fit_straight", 1.5)] := rfl
  refine ⟨rfl, rfl, rfl, ?_, by decide, hdelta, ?_⟩
  · rw [computeDelta_eq_map _ _ hnd]
    exact lookup0_map_const (weightFor a) (extractFeatures rec) f hf
  · rw [hdelta]
    unfold taste_vector_apply
    have hk : applyKeys [] [("era_90s", (1.5 : ℚ)), ("fit_straight", 1.5)] =
        ["era_90s", "fit_straight"] := rfl
    rw [hk]
    simp only [List.map_cons, List.map_nil]
    have h2 : lookup0 [("era_90s", (1.5 : ℚ)), ("fit_straight", 1.5)] "era_90s" = 1.5 := rfl
    have h4 : lookup0 [("era_90s", (1.5 : ℚ)), ("fit_straight", 1.5)] "fit_straight" = 1.5 := rfl
    rw [show lookup0 [] "era_90s" = 0 from rfl, show lookup0 [] "fit_straight" = 0 from rfl,
        h2, h4]
    have hval : clampQ (-30) 30 ((0 : ℚ) * 1 + 1.5) = 1.5 := by
      unfold clampQ
      rw [show (0 : ℚ) * 1 + 1.5 = 1.5 by norm_num]
      rw [min_eq_right (by norm_num), max_eq_right (by norm_num)]
    rw [hval]

/-- C6 witness: the delta of a `bought` action on the example item maps
era_90s to the bought weight. -/
theorem feedback_weights_and_delta_witness :
    lookup0 (computeDelta (extractFeatures recBoughtExample)
      (weightFor FeedbackAction.bought)) "era_90s" = weightFor FeedbackAction.bought :=
  (feedback_weights_and_delta FeedbackAction.bought recBoughtExample "era_90s"
    (by decide)).2.2.2.1

/- ================= C9 helper lemmas ================= -/

theorem filter_map_zero (k : String) (p : String × ℚ → Bool)
    (hp : ∀ s, p (s, 0) = false) :
    ∀ tv : TasteVector,
      (tv.map (fun e => if e.1 == k then (e.1, (0 : ℚ)) else e)).filter p =
      (tv.filter (fun e => !(e.1 == k))).filter p := by
  intro tv
  induction tv with
  | nil => rfl
  | cons e t ih =>
      by_cases he : e.1 = k
      · have hbeq : (e.1 == k) = true := by simp [he]
        simp only [List.map_cons, List.filter_cons, hbeq, hp e.1,
          eq_self_iff_true, if_true, Bool.not_true, Bool.false_eq_true, if_false]
        exact ih
      · have hbeq : (e.1 == k) = false := by simp [he]
        simp only [List.map_cons, List.filter_cons, hbeq,
          Bool.false_eq_true, if_false, Bool.not_false, eq_self_iff_true, if_true]
        rw [ih]

theorem filter_setKeyZero (k : String) (p : String × ℚ → Bool)
    (hp : ∀ s, p (s, 0) = false) (tv : TasteVector) :
    (setKeyZero k tv).filter p = (removeKey k tv).filter p := by
  unfold setKeyZero removeKey
  split_ifs with h
  · exact filter_map_zero k p hp tv
  · rw [List.filter_append]
    have h1 : [((k : String), (0 : ℚ))].filter p = [] := by simp [hp k]
    rw [h1, List.append_nil]
    have h2 : tv.filter (fun e => !(e.1 == k)) = tv := by
      apply List.filter_eq_self.mpr
      intro e he
      have hbk : (e.1 == k) = false := by
        cases hb : (e.1 == k) with
        | false => rfl
        | true => exact absurd (List.any_eq_true.mpr ⟨e, he, hb⟩) h
      simp [hbk]
    rw [h2]

/- ================= C9 ================= -/

/-- C9: a key mapped to exactly zero behaves like an absent key for all
scoring logic — the grouped taste summary, and therefore the taste-match
score, the dislike-override check, and the full confidence result, are the
same for a vector with the key zeroed and for the vector with the key
removed. -/
theorem zero_equals_absent_key (tv : TasteVector) (k : String) (rec : DenimRec)
    (aF aR : Option (List String)) (d : Option ℚ) :
    summarizeTasteVectorGrouped (some (setKeyZero k tv)) =
      summarizeTasteVectorGrouped (some (removeKey k tv)) ∧
    scoreTasteMatch (tokenizeRecText rec)
        (summarizeTasteVectorGrouped (some (setKeyZero k tv))) =
      scoreTasteMatch (tokenizeRecText rec)
        (summarizeTasteVectorGrouped (some (removeKey k tv))) ∧
    hasTasteDislikeHit (tokenizeRecText rec)
        (summarizeTasteVectorGrouped (some (setKeyZero k tv))) =
      hasTasteDislikeHit (tokenizeRecText rec)
        (summarizeTasteVectorGrouped (some (removeKey k tv))) ∧
    computeRecConfidence rec aF aR
        (summarizeTasteVectorGrouped (some (setKeyZero k tv))) d =
      computeRecConfidence rec aF aR
        (summarizeTasteVectorGrouped (some (removeKey k tv))) d := by
  have hbucket : ∀ g : TasteGroup,
      mkBucket (entriesFor g (setKeyZero k tv)) =
      mkBucket (entriesFor g (removeKey k tv)) := by
    intro g
    have hp1 : ∀ s : String,
        (decide ((0.25 : ℚ) < (0 : ℚ)) && decide (groupForKey s = some g)) = false := by
      intro s
      have hlt : ¬ ((0.25 : ℚ) < 0) := by norm_num
      simp [hlt]
    have hp2 : ∀ s : String,
        (decide ((0 : ℚ) < -(0.25 : ℚ)) && decide (groupForKey s = some g)) = false := by
      intro s
      have hlt : ¬ ((0 : ℚ) < -(0.25 : ℚ)) := by norm_num
      simp [hlt]
    have hlike := filter_setKeyZero k
      (fun a => decide ((0.25 : ℚ) < a.2) && decide (groupForKey a.1 = some g))
      (fun s => hp1 s) tv
    have hdis := filter_setKeyZero k
      (fun a => decide (a.2 < -(0.25 : ℚ)) && decide (groupForKey a.1 = some g))
      (fun s => hp2 s) tv
    unfold mkBucket entriesFor
    rw [List.filter_filter, List.filter_filter, List.filter_filter, List.filter_filter]
    rw [hlike, hdis]
  have hsum : summarizeTasteVectorGrouped (some (setKeyZero k tv)) =
      summarizeTasteVectorGrouped (some (removeKey k tv)) := by
    simp only [summarizeTasteVectorGrouped]
    rw [hbucket TasteGroup.era, hbucket TasteGroup.fit, hbucket TasteGroup.rise,
        hbucket TasteGroup.wash, hbucket TasteGroup.fabric]
  exact ⟨hsum, by rw [hsum], by rw [hsum], by rw [hsum]⟩
